import Mathlib

/-!
# Verification of the APCS backend command/telemetry pipeline

Shallow embedding of the command dispatch, schedule evaluation and
telemetry ingest code of the APCS backend (a Node.js service).  Each
JavaScript function relevant to the verified properties is translated
into a pure Lean function; the asynchronous effects (MongoDB writes,
MQTT publishes, HTTP/socket responses) are made explicit as a trace of
`Effect` events listed in their completion order on the Node.js event
loop.  Database writes are assumed to succeed; the MQTT broker's
connect/publish outcomes are explicit boolean parameters.
-/

namespace APCS

/-- JavaScript `String.prototype.startsWith(pre)`: `pre` is a prefix
of the receiver.  (Structurally recursive stand-in for
`String.startsWith`, whose well-founded byte loop does not reduce in
the kernel.) -/
def jsStartsWith (s pre : String) : Bool :=
  pre.data.isPrefixOf s.data

/-- Split a character list on a separator, keeping empty segments, as
JavaScript `String.prototype.split` does. -/
def jsSplitAux (sep : Char) (cs : List Char) (acc : List Char) : List (List Char) :=
  match cs with
  | [] => [acc.reverse]
  | c :: cs' =>
    if c = sep then acc.reverse :: jsSplitAux sep cs' []
    else jsSplitAux sep cs' (c :: acc)

/-- JavaScript `String.prototype.split(sep)` for a one-character
separator: `""` yields `[""]`, adjacent separators yield empty
segments. -/
def jsSplit (s : String) (sep : Char) : List String :=
  (jsSplitAux sep s.data []).map String.mk

/-- JavaScript `String.prototype.trim()`: strip whitespace from both
ends. -/
def jsTrim (s : String) : String :=
  String.mk (((s.data.dropWhile Char.isWhitespace).reverse.dropWhile
    Char.isWhitespace).reverse)

/-- The three command kinds accepted by `MqttService.sendCommand`
(`src/services/mqttService.js`). -/
inductive CommandType where
  | dispenseFood
  | dispenseWater
  | setTemperature
deriving DecidableEq, Repr

/-- Lifecycle status of a `Command` record (`models/Command`). -/
inductive CmdStatus where
  | pending
  | processing
  | completed
  | failed
deriving DecidableEq, Repr

/-- A JavaScript number as the dispatch layer sees it: its numeric
value `q` together with its string rendering `str` (what a template
literal `` `F${value}` `` produces).  The dispatch code never reformats
the number, so both components are carried unchanged. -/
structure JsNum where
  q : ℚ
  str : String
deriving DecidableEq, Repr

/-- A device document (`models/Device`): the fields the dispatch and
telemetry code reads. -/
structure Device where
  id : Nat
  userId : Nat
  status : String
  name : String
deriving DecidableEq, Repr

/-- Observable effects of one request, in completion order on the
event loop.  A fire-and-forget database update (one that is started
but not awaited before the response is sent) completes strictly after
the synchronously-sent response, so it appears after the `respond`
event in the trace. -/
inductive Effect where
  | createCommand (id : Nat) (deviceId : Nat) (ctype : CommandType)
      (value : ℚ) (status : CmdStatus)
  | publish (topic : String) (payload : String)
  | updateCommand (id : Nat) (status : CmdStatus)
  | respond (ok : Bool)
  | emitCommandStatus (id : Nat) (status : CmdStatus)
  | createReading (deviceId : Nat) (sensorType : String) (value : ℚ)
  | createNotification (userId : Nat) (title : String) (ntype : String)
deriving DecidableEq, Repr

/-- The server→client command topic (`this.s2cTopic`). -/
def s2cTopic : String := "/seniorDesign/s2c"

/-- The single-letter wire code of each command kind, from the
`switch (commandType)` in `MqttService.sendCommand`
(`src/services/mqttService.js` lines 303–316). -/
def wireLetter : CommandType → String
  | .dispenseFood => "F"
  | .dispenseWater => "W"
  | .setTemperature => "T"

/-- The wire payload built by `MqttService.sendCommand`:
`` `F${value}` `` etc., i.e. the letter followed by the caller's
number rendered exactly as JavaScript renders it. -/
def mqttCommandString (commandType : CommandType) (value : JsNum) : String :=
  wireLetter commandType ++ value.str

/-- Environment of one `sendCommand` call: whether the MQTT client is
connected and whether the broker acknowledges the publish. -/
structure MqttEnv where
  connected : Bool
  publishOk : Bool
deriving DecidableEq, Repr

/-- Embedding of `MqttService.sendCommand(commandType, value, deviceId)`
(`src/services/mqttService.js` lines 293–365), returning its effect
trace and its boolean result.  `cmdId` is the database id assigned to
the `Command.create` record.  If the client is not connected it
returns `false` with no effects; otherwise it creates a `pending`
command record (value `value || 0`), publishes the wire string, and on
publish acknowledgment awaits the update to `processing` before
resolving `true`; on publish error it resolves `false` without any
status update. -/
def sendCommand (env : MqttEnv) (commandType : CommandType) (value : JsNum)
    (deviceId : Nat) (cmdId : Nat) : List Effect × Bool :=
  if ¬ env.connected then ([], false)
  else
    let mqttCommand := mqttCommandString commandType value
    let createEff := Effect.createCommand cmdId deviceId commandType
      (if value.q = 0 then 0 else value.q) CmdStatus.pending
    if env.publishOk then
      ([createEff, Effect.publish s2cTopic mqttCommand,
        Effect.updateCommand cmdId CmdStatus.processing], true)
    else
      ([createEff], false)

/-- The status a command record with id `id` holds after the trace has
fully run (creation and every later update applied in order). -/
def finalStatus (id : Nat) (tr : List Effect) : Option CmdStatus :=
  tr.foldl (fun acc e =>
    match e with
    | .createCommand i _ _ _ st => if i = id then some st else acc
    | .updateCommand i st => if i = id then some st else acc
    | _ => acc) none

/-- Whether a trace persists any command record at all. -/
def createsCommand (tr : List Effect) : Bool :=
  tr.any (fun e =>
    match e with
    | .createCommand _ _ _ _ _ => true
    | _ => false)

/-- The `dispenseFood` HTTP controller (`src/controllers/controlController.js`
lines 11–135).  Validates `!amount || amount <= 0 || amount > 100`
(for a JavaScript number, falsy means `0`, which `amount <= 0` already
covers, so the guard is `¬(0 < amount ≤ 100)`); looks up the user's
devices; rejects when none exist or the first is not `online`; then
creates a `pending` command record and publishes **the literal string
`'F0'`** over a throwaway direct MQTT client.  `connectOk` is whether
that direct client connects, `publishOk` whether the broker
acknowledges the publish.  On both the publish-error and the
connection-error paths the update to `failed`, and on the success path
the update to `processing`, is started with
`Command.findByIdAndUpdate(..).catch(..)` but not awaited, so it
completes after the HTTP response is sent. -/
def dispenseFoodHttp (db : List Device) (userId : Nat) (amount : Option JsNum)
    (connectOk : Bool) (publishOk : Bool) : List Effect :=
  match amount with
  | none => [Effect.respond false]
  | some a =>
    if a.q ≤ 0 ∨ 100 < a.q then [Effect.respond false]
    else
      match db.filter (fun d => d.userId = userId) with
      | [] => [Effect.respond false]
      | device :: _ =>
        if device.status ≠ "online" then [Effect.respond false]
        else
          let createEff := Effect.createCommand 0 device.id CommandType.dispenseFood
            (if a.q = 0 then 0 else a.q) CmdStatus.pending
          if ¬ connectOk then
            [createEff, Effect.respond false, Effect.updateCommand 0 CmdStatus.failed]
          else if ¬ publishOk then
            [createEff, Effect.respond false, Effect.updateCommand 0 CmdStatus.failed]
          else
            [createEff, Effect.publish s2cTopic "F0", Effect.respond true,
             Effect.updateCommand 0 CmdStatus.processing]

/-- The `dispenseWater` HTTP controller (`src/controllers/controlController.js`
lines 140–195): same validation as `dispenseFood`, then awaits
`mqttService.sendCommand('dispenseWater', amount, device._id)` and
responds 500/200 on its boolean result. -/
def dispenseWaterHttp (env : MqttEnv) (db : List Device) (userId : Nat)
    (amount : Option JsNum) : List Effect :=
  match amount with
  | none => [Effect.respond false]
  | some a =>
    if a.q ≤ 0 ∨ 100 < a.q then [Effect.respond false]
    else
      match db.filter (fun d => d.userId = userId) with
      | [] => [Effect.respond false]
      | device :: _ =>
        if device.status ≠ "online" then [Effect.respond false]
        else
          let r := sendCommand env CommandType.dispenseWater a device.id 0
          r.1 ++ [Effect.respond r.2]

/-- The `setTemperature` HTTP controller (`src/controllers/controlController.js`
lines 200–255): validates `temperature === undefined || temperature < 15
|| temperature > 30`, then awaits
`mqttService.sendCommand('setTemperature', ...)`. -/
def setTemperatureHttp (env : MqttEnv) (db : List Device) (userId : Nat)
    (temperature : Option JsNum) : List Effect :=
  match temperature with
  | none => [Effect.respond false]
  | some t =>
    if t.q < 15 ∨ 30 < t.q then [Effect.respond false]
    else
      match db.filter (fun d => d.userId = userId) with
      | [] => [Effect.respond false]
      | device :: _ =>
        if device.status ≠ "online" then [Effect.respond false]
        else
          let r := sendCommand env CommandType.setTemperature t device.id 0
          r.1 ++ [Effect.respond r.2]

/-- The common body of the three socket handlers in `setupSocketIO`
(`src/unnamed/part_011`): after validation and the existence check on
the user's devices (there is **no** online-status check), create a
`pending` command record (id 0), await `mqttService.sendCommand`
(whose own record gets id 1), update the record to `processing` only
on success, create an informational notification, and emit the
command's (possibly still `pending`) status. -/
def socketCommandBody (env : MqttEnv) (device : Device) (ctype : CommandType)
    (v : JsNum) (userId : Nat) (title : String) : List Effect :=
  let createEff := Effect.createCommand 0 device.id ctype v.q CmdStatus.pending
  let r := sendCommand env ctype v device.id 1
  let st := if r.2 then CmdStatus.processing else CmdStatus.pending
  [createEff] ++ r.1
    ++ (if r.2 then [Effect.updateCommand 0 CmdStatus.processing] else [])
    ++ [Effect.createNotification userId title "info",
        Effect.emitCommandStatus 0 st]

/-- The `socket.on('dispenseFood', ...)` handler (`src/unnamed/part_011`
lines 80–147). -/
def dispenseFoodSocket (env : MqttEnv) (db : List Device) (userId : Nat)
    (amount : Option JsNum) : List Effect :=
  match amount with
  | none => [Effect.respond false]
  | some a =>
    if a.q ≤ 0 ∨ 100 < a.q then [Effect.respond false]
    else
      match db.filter (fun d => d.userId = userId) with
      | [] => [Effect.respond false]
      | device :: _ =>
        socketCommandBody env device CommandType.dispenseFood a userId
          "Food Dispense Command Sent"

/-- The `socket.on('dispenseWater', ...)` handler (`src/unnamed/part_011`
lines 150–217). -/
def dispenseWaterSocket (env : MqttEnv) (db : List Device) (userId : Nat)
    (amount : Option JsNum) : List Effect :=
  match amount with
  | none => [Effect.respond false]
  | some a =>
    if a.q ≤ 0 ∨ 100 < a.q then [Effect.respond false]
    else
      match db.filter (fun d => d.userId = userId) with
      | [] => [Effect.respond false]
      | device :: _ =>
        socketCommandBody env device CommandType.dispenseWater a userId
          "Water Dispense Command Sent"

/-- The `socket.on('setTemperature', ...)` handler (`src/unnamed/part_011`
lines 220–287). -/
def setTemperatureSocket (env : MqttEnv) (db : List Device) (userId : Nat)
    (temperature : Option JsNum) : List Effect :=
  match temperature with
  | none => [Effect.respond false]
  | some t =>
    if t.q < 15 ∨ 30 < t.q then [Effect.respond false]
    else
      match db.filter (fun d => d.userId = userId) with
      | [] => [Effect.respond false]
      | device :: _ =>
        socketCommandBody env device CommandType.setTemperature t userId
          "Temperature Command Sent"

/-! ## Scheduler (`src/unnamed/part_010`, backend/services/schedulerService.js) -/

/-- A schedule document (`models/Schedule`): the fields
`shouldRunSchedule` and `checkAndExecuteSchedules` read. -/
structure Schedule where
  deviceId : Nat
  stype : String
  time : String
  days : List String
  amount : JsNum
  enabled : Bool
deriving DecidableEq, Repr

/-- The current instant as the scheduler observes it: the locale
weekday name (`now.toLocaleString('en-US', { weekday: 'long' })`) and
`now.getHours()` / `now.getMinutes()`. -/
structure Now where
  weekday : String
  hour : Nat
  minute : Nat
deriving DecidableEq, Repr

/-- JavaScript `Number(s)` restricted to the strings a `"HH:MM"` split
produces: a non-empty digit string is its value, the empty string is
`0`, anything else is `NaN` (`none`).  (Signs, decimals and exponents
never occur in the `time.split(':')` components this models.) -/
def jsNumberNat (s : String) : Option Nat :=
  if s.data = [] then some 0
  else if s.data.all Char.isDigit then
    some (s.data.foldl (fun a c => 10 * a + (c.toNat - 48)) 0)
  else none

/-- Embedding of `shouldRunSchedule(schedule)` (`src/unnamed/part_010` lines 8–31):
`schedule.time.split(':').map(Number)` destructured into hours and
minutes (a missing component is `undefined` and a non-numeric one is
`NaN`; `===` against either is false), then
`enabled && days.includes(currentDay) && currentHours === scheduleHours
&& currentMinutes === scheduleMinutes`. -/
def shouldRunSchedule (now : Now) (schedule : Schedule) : Bool :=
  let parts := (jsSplit schedule.time ':').map jsNumberNat
  let scheduleHours := parts.getD 0 none
  let scheduleMinutes := parts.getD 1 none
  schedule.enabled && schedule.days.contains now.weekday
    && (some now.hour = scheduleHours : Bool) && (some now.minute = scheduleMinutes : Bool)

/-- The body of the `for` loop of `checkAndExecuteSchedules`
(`src/unnamed/part_010` lines 46–81) for one schedule: when
`shouldRunSchedule` holds, `Device.findById(schedule.deviceId)` must
find the device (`continue` otherwise); then a `pending` command
record (id 0) is created with `schedule.type === 'food' ? 'dispenseFood'
: 'dispenseWater'` and the schedule's amount, `mqttService.sendCommand`
is awaited (its own record gets id 1), and on success the scheduler's
record is updated to `processing` (awaited); on failure it is left
untouched. -/
def executeSchedule (env : MqttEnv) (now : Now) (db : List Device)
    (schedule : Schedule) : List Effect :=
  if shouldRunSchedule now schedule then
    match db.find? (fun d => d.id = schedule.deviceId) with
    | none => []
    | some _ =>
      let ctype := if schedule.stype = "food" then CommandType.dispenseFood
        else CommandType.dispenseWater
      let createEff := Effect.createCommand 0 schedule.deviceId ctype
        schedule.amount.q CmdStatus.pending
      let r := sendCommand env ctype schedule.amount schedule.deviceId 1
      [createEff] ++ r.1
        ++ (if r.2 then [Effect.updateCommand 0 CmdStatus.processing] else [])
  else []

/-- Embedding of `checkAndExecuteSchedules` (`src/unnamed/part_010` lines 34–85):
`Schedule.find({ enabled: true })` then the per-schedule loop body. -/
def checkAndExecuteSchedules (env : MqttEnv) (now : Now) (db : List Device)
    (schedules : List Schedule) : List Effect :=
  (schedules.filter (fun s => s.enabled)).flatMap (executeSchedule env now db)

/-! ## Telemetry ingest (`MqttService.handleSensorData`) -/

/-- JavaScript `parseFloat` on an already-trimmed field, for the
decimal literals telemetry carries: an optional sign, then the longest
prefix of digits with at most one decimal point; `NaN` (`none`) when
no digit is consumed.  (Exponent and `Infinity` forms never occur in
the `food,water,temperature,humidity` wire format this models.) -/
def jsParseFloat (s : String) : Option ℚ :=
  let digitsToNat : List Char → Nat :=
    fun ds => ds.foldl (fun a c => 10 * a + (c.toNat - 48)) 0
  let core : List Char → Option ℚ := fun cs =>
    let ip := cs.takeWhile Char.isDigit
    let rest := cs.dropWhile Char.isDigit
    let fp := match rest with
      | '.' :: r => r.takeWhile Char.isDigit
      | _ => []
    if ip = [] ∧ fp = [] then none
    else some (mkRat (digitsToNat ip * 10 ^ fp.length + digitsToNat fp) (10 ^ fp.length))
  match s.data with
  | '-' :: r => (core r).map (fun q => -q)
  | '+' :: r => core r
  | cs => core cs

/-- The field parse of `handleSensorData`
(`src/services/mqttService.js` line 101):
`data.split(',').map(val => parseFloat(val.trim()))`, with `NaN`
represented as `none`. -/
def parsedValues (data : String) : List (Option ℚ) :=
  (jsSplit data ',').map (fun v => jsParseFloat (jsTrim v))

/-- Embedding of `createNotificationForSensorThreshold(deviceId, type, value,
threshold, level)` (`src/services/mqttService.js` lines 236–291) as
the notification effect it persists: `Device.findById` must find the
device (no effect otherwise); `food`/`water` titles depend on the
level and the type maps `warning ↦ warning`, `critical ↦ danger`.
The human-readable message text is not modelled; no verified property
observes it. -/
def thresholdNotification (db : List Device) (deviceId : Nat) (stype : String)
    (level : String) : List Effect :=
  match db.find? (fun d => d.id = deviceId) with
  | none => []
  | some device =>
    let title :=
      if stype = "food" then
        if level = "warning" then "Low Food Level" else "Critical Food Level"
      else
        if level = "warning" then "Low Water Level" else "Critical Water Level"
    let ntype := if level = "warning" then "warning" else "danger"
    [Effect.createNotification device.userId title ntype]

/-- The per-device body of the `for (const device of devices)` loop of
`handleSensorData` (`src/services/mqttService.js` lines 127–227): one
reading per sensor type in order food, water, temperature, humidity,
with the threshold notifications interleaved right after the food and
water readings (`food ≤ 10` critical, else `≤ 20` warning;
`water ≤ 15` critical, else `≤ 25` warning). -/
def perDeviceSensorEffects (db : List Device) (v0 v1 v2 v3 : ℚ)
    (device : Device) : List Effect :=
  [Effect.createReading device.id "food" v0]
    ++ (if v0 ≤ 10 then thresholdNotification db device.id "food" "critical"
        else if v0 ≤ 20 then thresholdNotification db device.id "food" "warning"
        else [])
    ++ [Effect.createReading device.id "water" v1]
    ++ (if v1 ≤ 15 then thresholdNotification db device.id "water" "critical"
        else if v1 ≤ 25 then thresholdNotification db device.id "water" "warning"
        else [])
    ++ [Effect.createReading device.id "temperature" v2,
        Effect.createReading device.id "humidity" v3]

/-- Embedding of `MqttService.handleSensorData(data)`
(`src/services/mqttService.js` lines 90–234).  Messages starting with
`'TEST-'` are skipped; the comma-split fields are parsed with
`parseFloat`; fewer than four fields or any `NaN` aborts with no
effects; otherwise `values[0..3]` are taken as food, water,
temperature, humidity, `Device.find({ status: 'online' })` selects the
fan-out targets (none → no effects), and each online device gets the
per-device readings and notifications. -/
def handleSensorData (data : String) (db : List Device) : List Effect :=
  if jsStartsWith data "TEST-" then []
  else
    let values := parsedValues data
    if values.length < 4 ∨ values.any (fun v => v.isNone) then []
    else
      let v0 := (values.getD 0 none).getD 0
      let v1 := (values.getD 1 none).getD 0
      let v2 := (values.getD 2 none).getD 0
      let v3 := (values.getD 3 none).getD 0
      let devices := db.filter (fun d => d.status = "online")
      if devices = [] then []
      else devices.flatMap (perDeviceSensorEffects db v0 v1 v2 v3)

/-! ## Hardware-side wire decoding and the actuator safety core

The hardware agent that parses command strings and the Python
`control_system` actuator package are not part of this repository's
sources (`src/unnamed/part_001` is only a compiled test artifact that
exercises them), so the two definitions below are modelled from the
spec. -/

/-- Modelled from the spec: the hardware-side parse of a command wire
string, absent from `src/` (only the server-side encoder in
`MqttService.sendCommand` is present).  Spec §6: "single ASCII letter
command code (`F`,`W`,`T`) immediately followed by the numeric value,
no separator"; the leading letter selects the command kind. -/
def parseWireCommandKind (s : String) : Option CommandType :=
  match s.data with
  | 'F' :: _ => some CommandType.dispenseFood
  | 'W' :: _ => some CommandType.dispenseWater
  | 'T' :: _ => some CommandType.setTemperature
  | _ => none

/-- Modelled from the spec: actuator kinds of the safety core; the `control_system` actuator sources are
absent from `src/` (only the compiled test artifact
`src/unnamed/part_001` references `EnvironmentalController` and
`ControllerType.HEATER`). -/
inductive ActuatorKind where
  | foodDispenser
  | waterDispenser
  | heater
  | fan
deriving DecidableEq, Repr

/-- Modelled from the spec: the effective power an `activate(power,
duration)` request applies, for the actuator sources absent from
`src/`.  Spec §4.1: power is clamped to `[0.1, 1.0]` (sub-0.1
requests silently raised, §9 open question), and "for environmental
controllers specifically of kind `Heater`, requested power above 0.7
is clamped to 0.7 as a hard safety ceiling regardless of caller
input". -/
def effectivePower (kind : ActuatorKind) (requested : ℚ) : ℚ :=
  let clamped := min (max requested (1/10)) 1
  if kind = ActuatorKind.heater ∧ (7/10 : ℚ) < clamped then 7/10 else clamped

/-- Modelled from the spec: the observable slice of an actuator's
mutable status after a successful activation — state becomes `Active`
and `current_power` becomes the effective (clamped) power. -/
structure ActuatorStatus where
  kind : ActuatorKind
  active : Bool
  currentPower : ℚ
deriving DecidableEq, Repr

/-- Modelled from the spec: a successful `activate(power, duration)`
records the clamped power as the actuator's `current_power`
(spec §4.1). -/
def activateStatus (kind : ActuatorKind) (requested : ℚ) : ActuatorStatus :=
  { kind := kind, active := true, currentPower := effectivePower kind requested }

/-- Position of the first occurrence of an effect in a trace (length
of the trace when absent). -/
def idxOfEffect (e : Effect) : List Effect → Nat
  | [] => 0
  | x :: xs => if x = e then 0 else idxOfEffect e xs + 1

/-- The sensor readings a trace persists, as
(device id, sensor type, value) triples in trace order. -/
def readingsOf (tr : List Effect) : List (Nat × String × ℚ) :=
  tr.filterMap (fun e =>
    match e with
    | .createReading d t v => some (d, t, v)
    | _ => none)

/-! ## Theorems -/

/-- C6: the mapping from the three command kinds to their wire letters
`F`, `W`, `T` is a bijection: decoding the leading letter of the
encoded wire string recovers the original kind for each of the three
defined kinds, and distinct kinds encode to distinct letters. -/
theorem wireCode_roundtrip_bijection :
    (∀ (k : CommandType) (v : JsNum),
      parseWireCommandKind (mqttCommandString k v) = some k)
    ∧ Function.Injective wireLetter := by
  constructor
  · intro k v
    obtain ⟨q, ⟨cs⟩⟩ := v
    cases k <;> rfl
  · intro a b h
    cases a <;> cases b <;> first | rfl | exact absurd h (by decide)

/-- C7: an inbound telemetry message beginning with the reserved
`TEST-` prefix is discarded without any processing: no sensor reading,
no notification, no state change at all. -/
theorem testPrefix_discarded (data : String) (db : List Device)
    (h : jsStartsWith data "TEST-" = true) :
    handleSensorData data db = [] := by
  simp [handleSensorData, h]

/-- Witness for `testPrefix_discarded`: the init-time test message is
dropped even with an online device present. -/
theorem testPrefix_discarded_witness :
    jsStartsWith "TEST-COMMAND-INIT" "TEST-" = true
      ∧ handleSensorData "TEST-COMMAND-INIT" [⟨1, 1, "online", "d"⟩] = [] :=
  ⟨by decide, testPrefix_discarded "TEST-COMMAND-INIT" [⟨1, 1, "online", "d"⟩] (by decide)⟩

/-- C8: activating a Heater-kind environmental controller clamps any
requested power to at most 0.7, so the reported `current_power` never
exceeds 0.7; a request strictly above the ceiling lands exactly at
0.7. -/
theorem heater_power_ceiling (p : ℚ) :
    (activateStatus ActuatorKind.heater p).currentPower ≤ 7/10
      ∧ ((7:ℚ)/10 < p → (activateStatus ActuatorKind.heater p).currentPower = 7/10) := by
  unfold activateStatus effectivePower
  constructor
  · dsimp only
    split
    · norm_num
    · rename_i hc
      rw [not_and_or] at hc
      rcases hc with hc | hc
      · exact absurd rfl hc
      · exact le_of_not_lt hc
  · intro hp
    dsimp only
    rw [if_pos]
    refine ⟨rfl, ?_⟩
    rw [lt_min_iff]
    constructor
    · exact lt_of_lt_of_le hp (le_max_left _ _)
    · norm_num

/-- Witness for `heater_power_ceiling`: a request at full power 1.0 is
capped to exactly 0.7. -/
theorem heater_power_ceiling_witness :
    (activateStatus ActuatorKind.heater 1).currentPower ≤ 7/10
      ∧ (activateStatus ActuatorKind.heater 1).currentPower = 7/10 :=
  ⟨(heater_power_ceiling 1).1, (heater_power_ceiling 1).2 (by norm_num)⟩

/-- C1 (failing input): submitting dispense-food with amount 5 through
the HTTP controller, with one online device, publishes the hard-coded
payload `"F0"` — not `"F5"`, the letter followed by the caller's
amount, which is what `MqttService.sendCommand` builds and the claim
requires on every dispatch path. -/
theorem httpDispenseFood_publishes_F0 :
    (Effect.publish s2cTopic "F0"
        ∈ dispenseFoodHttp [⟨1, 7, "online", "feeder"⟩] 7 (some ⟨5, "5"⟩) true true)
    ∧ (Effect.publish s2cTopic "F5"
        ∉ dispenseFoodHttp [⟨1, 7, "online", "feeder"⟩] 7 (some ⟨5, "5"⟩) true true)
    ∧ mqttCommandString CommandType.dispenseFood ⟨5, "5"⟩ = "F5" := by
  decide

/-- C2 (counterexample): a `sendCommand` dispatch whose publish fails
reports `false` to the caller but leaves the persisted command record
`pending`, never writing `failed` as the claim requires. -/
theorem sendCommand_publishFailure_leaves_pending :
    (sendCommand ⟨true, false⟩ CommandType.dispenseWater ⟨5, "5"⟩ 1 0).2 = false
    ∧ finalStatus 0 (sendCommand ⟨true, false⟩ CommandType.dispenseWater ⟨5, "5"⟩ 1 0).1
        = some CmdStatus.pending
    ∧ finalStatus 0 (sendCommand ⟨true, false⟩ CommandType.dispenseWater ⟨5, "5"⟩ 1 0).1
        ≠ some CmdStatus.failed := by
  decide

/-- C3 (counterexample): the socket `dispenseFood` handler submits a
command for a device whose status is `offline`: a Command record is
persisted and no device-unavailable failure is emitted, contradicting
the claim that the online check precedes record creation on every
submission path. -/
theorem socket_dispenseFood_offline_creates_command :
    createsCommand
        (dispenseFoodSocket ⟨true, true⟩ [⟨1, 7, "offline", "feeder"⟩] 7 (some ⟨5, "5"⟩))
      = true
    ∧ Effect.respond false
        ∉ dispenseFoodSocket ⟨true, true⟩ [⟨1, 7, "offline", "feeder"⟩] 7 (some ⟨5, "5"⟩) := by
  decide

/-- C4 (counterexample): a schedule `{time:"08:00", days:["Monday"]}`,
enabled, evaluated at Monday 08:00 — `shouldRunSchedule` holds, yet no
command is dispatched because its target device id is not in the
registry, so the schedule does not fire exactly when the claim's three
conditions hold. -/
theorem schedule_matching_without_device_does_not_fire :
    shouldRunSchedule ⟨"Monday", 8, 0⟩ ⟨42, "food", "08:00", ["Monday"], ⟨30, "30"⟩, true⟩ = true
    ∧ executeSchedule ⟨true, true⟩ ⟨"Monday", 8, 0⟩ []
        ⟨42, "food", "08:00", ["Monday"], ⟨30, "30"⟩, true⟩ = []
    ∧ checkAndExecuteSchedules ⟨true, true⟩ ⟨"Monday", 8, 0⟩ []
        [⟨42, "food", "08:00", ["Monday"], ⟨30, "30"⟩, true⟩] = [] := by
  decide

/-- C5 (counterexample): on the HTTP direct-publish dispense-food path
with a successful publish, the success response is sent strictly
before the `pending → processing` status write completes — the write
is still pending when the caller is acknowledged. -/
theorem httpDispenseFood_responds_before_write :
    dispenseFoodHttp [⟨1, 7, "online", "feeder"⟩] 7 (some ⟨5, "5"⟩) true true =
      [Effect.createCommand 0 1 CommandType.dispenseFood 5 CmdStatus.pending,
       Effect.publish s2cTopic "F0",
       Effect.respond true,
       Effect.updateCommand 0 CmdStatus.processing]
    ∧ idxOfEffect (Effect.respond true)
          (dispenseFoodHttp [⟨1, 7, "online", "feeder"⟩] 7 (some ⟨5, "5"⟩) true true)
        < idxOfEffect (Effect.updateCommand 0 CmdStatus.processing)
          (dispenseFoodHttp [⟨1, 7, "online", "feeder"⟩] 7 (some ⟨5, "5"⟩) true true) := by
  decide

/-- C2 (amended): on every dispatch path a successful publish
acknowledgment moves the command record to `processing` and a publish
failure is reported to the caller as a failure result; but the record
is moved to `failed` only on the HTTP direct-publish dispense-food
path — on the `sendCommand` path and the scheduler path a failed
publish leaves the record `pending`. -/
theorem command_status_reconciliation
    (env : MqttEnv) (k : CommandType) (v : JsNum) (d cid : Nat)
    (db : List Device) (userId : Nat) (dev : Device) (rest : List Device)
    (a : JsNum) (now : Now) (sch : Schedule)
    (hconn : env.connected = true)
    (hdev : db.filter (fun x => x.userId = userId) = dev :: rest)
    (hon : dev.status = "online")
    (ha0 : 0 < a.q) (ha100 : a.q ≤ 100)
    (hfire : shouldRunSchedule now sch = true)
    (hfound : (db.find? (fun x => x.id = sch.deviceId)).isSome = true) :
    ((sendCommand env k v d cid).2 = env.publishOk
      ∧ finalStatus cid (sendCommand env k v d cid).1
          = some (if env.publishOk then CmdStatus.processing else CmdStatus.pending))
    ∧ (finalStatus 0 (dispenseFoodHttp db userId (some a) true env.publishOk)
          = some (if env.publishOk then CmdStatus.processing else CmdStatus.failed)
        ∧ Effect.respond env.publishOk
            ∈ dispenseFoodHttp db userId (some a) true env.publishOk)
    ∧ finalStatus 0 (executeSchedule env now db sch)
        = some (if env.publishOk then CmdStatus.processing else CmdStatus.pending) := by
  have hval : ¬ (a.q ≤ 0 ∨ 100 < a.q) := by
    push_neg
    exact ⟨ha0, ha100⟩
  obtain ⟨dd, hdd⟩ := Option.isSome_iff_exists.mp hfound
  cases hp : env.publishOk <;>
    simp [sendCommand, dispenseFoodHttp, executeSchedule, finalStatus,
      hconn, hp, hdev, hon, hval, hdd, hfire]

/-- Witness for `command_status_reconciliation` on a failing publish:
the caller gets `false`, the `sendCommand` and scheduler records stay
`pending`, and only the HTTP direct path writes `failed`. -/
theorem command_status_reconciliation_witness :
    (sendCommand ⟨true, false⟩ CommandType.dispenseWater ⟨5, "5"⟩ 1 3).2 = false
    ∧ finalStatus 3 (sendCommand ⟨true, false⟩ CommandType.dispenseWater ⟨5, "5"⟩ 1 3).1
        = some CmdStatus.pending
    ∧ finalStatus 0 (dispenseFoodHttp [⟨1, 7, "online", "feeder"⟩] 7 (some ⟨5, "5"⟩) true false)
        = some CmdStatus.failed
    ∧ finalStatus 0 (executeSchedule ⟨true, false⟩ ⟨"Monday", 8, 0⟩ [⟨1, 7, "online", "feeder"⟩]
        ⟨1, "food", "08:00", ["Monday"], ⟨30, "30"⟩, true⟩)
        = some CmdStatus.pending := by
  have h := command_status_reconciliation ⟨true, false⟩ CommandType.dispenseWater ⟨5, "5"⟩ 1 3
    [⟨1, 7, "online", "feeder"⟩] 7 ⟨1, 7, "online", "feeder"⟩ [] ⟨5, "5"⟩
    ⟨"Monday", 8, 0⟩ ⟨1, "food", "08:00", ["Monday"], ⟨30, "30"⟩, true⟩
    rfl (by decide) rfl (by decide) (by decide) (by decide) (by decide)
  exact ⟨h.1.1, h.1.2, h.2.1.1, h.2.2⟩

/-- C3 (amended): the three HTTP controllers reject a submission
before creating any Command record when the user has no device or the
first device is not online; the three socket handlers check only
existence — a submission for an existing but offline device proceeds
to create a Command record instead of failing device-unavailable. -/
theorem device_validation_per_path
    (db : List Device) (userId : Nat) (env : MqttEnv) (v : JsNum)
    (dev : Device) (rest : List Device)
    (h15 : 15 ≤ v.q) (h30 : v.q ≤ 30) :
    (db.filter (fun x => x.userId = userId) = [] →
        dispenseFoodHttp db userId (some v) true true = [Effect.respond false]
      ∧ dispenseWaterHttp env db userId (some v) = [Effect.respond false]
      ∧ setTemperatureHttp env db userId (some v) = [Effect.respond false]
      ∧ dispenseFoodSocket env db userId (some v) = [Effect.respond false]
      ∧ dispenseWaterSocket env db userId (some v) = [Effect.respond false]
      ∧ setTemperatureSocket env db userId (some v) = [Effect.respond false])
    ∧ (db.filter (fun x => x.userId = userId) = dev :: rest →
        dev.status ≠ "online" →
          (dispenseFoodHttp db userId (some v) true true = [Effect.respond false]
        ∧ dispenseWaterHttp env db userId (some v) = [Effect.respond false]
        ∧ setTemperatureHttp env db userId (some v) = [Effect.respond false]
        ∧ createsCommand (dispenseFoodSocket env db userId (some v)) = true
        ∧ createsCommand (dispenseWaterSocket env db userId (some v)) = true
        ∧ createsCommand (setTemperatureSocket env db userId (some v)) = true)) := by
  have hA : ¬ (v.q ≤ 0 ∨ 100 < v.q) := by
    push_neg
    constructor <;> linarith
  have hT : ¬ (v.q < 15 ∨ 30 < v.q) := by
    push_neg
    exact ⟨h15, h30⟩
  constructor
  · intro hempty
    refine ⟨?_, ?_, ?_, ?_, ?_, ?_⟩ <;>
      simp [dispenseFoodHttp, dispenseWaterHttp, setTemperatureHttp,
        dispenseFoodSocket, dispenseWaterSocket, setTemperatureSocket,
        hempty, hA, hT]
  · intro hcons hoff
    refine ⟨?_, ?_, ?_, ?_, ?_, ?_⟩ <;>
      simp [dispenseFoodHttp, dispenseWaterHttp, setTemperatureHttp,
        dispenseFoodSocket, dispenseWaterSocket, setTemperatureSocket,
        socketCommandBody, createsCommand, hcons, hoff, hA, hT]

/-- Witness for `device_validation_per_path`: with a single `offline`
device, the HTTP dispense-food controller answers a bare failure with
no Command record, while the socket dispense-food handler persists a
Command record. -/
theorem device_validation_per_path_witness :
    (15 : ℚ) ≤ 20 ∧ (20 : ℚ) ≤ 30
    ∧ dispenseFoodHttp [⟨1, 7, "offline", "feeder"⟩] 7 (some ⟨20, "20"⟩) true true
        = [Effect.respond false]
    ∧ createsCommand
        (dispenseFoodSocket ⟨true, true⟩ [⟨1, 7, "offline", "feeder"⟩] 7 (some ⟨20, "20"⟩))
        = true := by
  have h := device_validation_per_path [⟨1, 7, "offline", "feeder"⟩] 7 ⟨true, true⟩ ⟨20, "20"⟩
    ⟨1, 7, "offline", "feeder"⟩ [] (by norm_num) (by norm_num)
  have h2 := h.2 (by decide) (by decide)
  exact ⟨by norm_num, by norm_num, h2.1, h2.2.2.2.1⟩

/-- A firing decision decomposed: the scheduler loop dispatches for a
schedule exactly when `shouldRunSchedule` holds and the target device
id is found in the registry. -/
theorem executeSchedule_ne_nil_iff (env : MqttEnv) (now : Now) (db : List Device)
    (sch : Schedule) :
    executeSchedule env now db sch ≠ [] ↔
      (shouldRunSchedule now sch = true
        ∧ (db.find? (fun d => d.id = sch.deviceId)).isSome = true) := by
  unfold executeSchedule
  cases hs : shouldRunSchedule now sch
  · simp [hs]
  · cases hf : db.find? (fun d => d.id = sch.deviceId) <;> simp [hf]

/-- The time/day predicate decomposed, given the schedule's time
parses as `[h, m]`. -/
theorem shouldRunSchedule_eq_true_iff (now : Now) (sch : Schedule) (h m : Nat)
    (hparse : (jsSplit sch.time ':').map jsNumberNat = [some h, some m]) :
    shouldRunSchedule now sch = true ↔
      (sch.enabled = true ∧ sch.days.contains now.weekday = true
        ∧ now.hour = h ∧ now.minute = m) := by
  unfold shouldRunSchedule
  rw [hparse]
  simp [List.getD, Bool.and_eq_true, decide_eq_true_eq, and_assoc]

/-- C4 (amended): a schedule fires — a command is dispatched for it by
the scheduler loop — exactly when it is enabled, the current weekday
is in its days set, the current hour/minute equal the parse of its
"HH:MM" time, and additionally its target device id exists in the
device registry; in particular `{time:"08:00", days:["Monday"]}` with
a registered device fires at Monday 08:00 and not at Monday 08:01 or
Tuesday 08:00. -/
theorem schedule_fire_exact_condition
    (env : MqttEnv) (now : Now) (db : List Device) (sch : Schedule) (h m : Nat)
    (hparse : (jsSplit sch.time ':').map jsNumberNat = [some h, some m]) :
    executeSchedule env now db sch ≠ [] ↔
      (sch.enabled = true ∧ sch.days.contains now.weekday = true
        ∧ now.hour = h ∧ now.minute = m
        ∧ (db.find? (fun d => d.id = sch.deviceId)).isSome = true) := by
  rw [executeSchedule_ne_nil_iff, shouldRunSchedule_eq_true_iff now sch h m hparse]
  tauto

/-- Witness for `schedule_fire_exact_condition`: the schedule
`{time:"08:00", days:["Monday"]}` with its device registered fires at
Monday 08:00 and does not fire at Monday 08:01 or Tuesday 08:00. -/
theorem schedule_fire_exact_condition_witness :
    executeSchedule ⟨true, true⟩ ⟨"Monday", 8, 0⟩ [⟨42, 7, "online", "d"⟩]
        ⟨42, "food", "08:00", ["Monday"], ⟨30, "30"⟩, true⟩ ≠ []
    ∧ executeSchedule ⟨true, true⟩ ⟨"Monday", 8, 1⟩ [⟨42, 7, "online", "d"⟩]
        ⟨42, "food", "08:00", ["Monday"], ⟨30, "30"⟩, true⟩ = []
    ∧ executeSchedule ⟨true, true⟩ ⟨"Tuesday", 8, 0⟩ [⟨42, 7, "online", "d"⟩]
        ⟨42, "food", "08:00", ["Monday"], ⟨30, "30"⟩, true⟩ = [] := by
  refine ⟨?_, ?_, ?_⟩
  · exact (schedule_fire_exact_condition ⟨true, true⟩ ⟨"Monday", 8, 0⟩ [⟨42, 7, "online", "d"⟩]
      ⟨42, "food", "08:00", ["Monday"], ⟨30, "30"⟩, true⟩ 8 0 (by decide)).mpr
      ⟨rfl, by decide, rfl, rfl, by decide⟩
  · have hiff := (schedule_fire_exact_condition ⟨true, true⟩ ⟨"Monday", 8, 1⟩ [⟨42, 7, "online", "d"⟩]
      ⟨42, "food", "08:00", ["Monday"], ⟨30, "30"⟩, true⟩ 8 0 (by decide))
    by_contra hne
    exact absurd (hiff.mp hne) (by decide)
  · have hiff := (schedule_fire_exact_condition ⟨true, true⟩ ⟨"Tuesday", 8, 0⟩ [⟨42, 7, "online", "d"⟩]
      ⟨42, "food", "08:00", ["Monday"], ⟨30, "30"⟩, true⟩ 8 0 (by decide))
    by_contra hne
    exact absurd (hiff.mp hne) (by decide)

/-- C5 (amended): the `pending` creation is durably written before the
outcome is reported on every dispatch path, and on every
`sendCommand`-based path — the dispense-water and set-temperature HTTP
controllers, the three socket handlers, and the scheduler — the
`pending → processing` write completes before the result/status is
reported; but on the HTTP direct-publish dispense-food path the
`processing` (or `failed`) update is only started before responding
and completes after the response is sent, and on a `sendCommand`
publish failure no `failed` write happens at all (the record stays
`pending` while the failure result is returned). -/
theorem write_before_acknowledge_per_path
    (envS envF : MqttEnv) (k : CommandType) (v : JsNum) (d cid : Nat)
    (db : List Device) (userId : Nat) (dev : Device) (rest : List Device)
    (a t : JsNum) (now : Now) (sch : Schedule)
    (hS1 : envS.connected = true) (hS2 : envS.publishOk = true)
    (hF1 : envF.connected = true) (hF2 : envF.publishOk = false)
    (hdev : db.filter (fun x => x.userId = userId) = dev :: rest)
    (hon : dev.status = "online")
    (ha0 : 0 < a.q) (ha100 : a.q ≤ 100)
    (ht15 : 15 ≤ t.q) (ht30 : t.q ≤ 30)
    (hfire : shouldRunSchedule now sch = true)
    (hfound : (db.find? (fun x => x.id = sch.deviceId)).isSome = true) :
    ((sendCommand envS k v d cid).1 =
        [Effect.createCommand cid d k (if v.q = 0 then 0 else v.q) CmdStatus.pending,
         Effect.publish s2cTopic (mqttCommandString k v),
         Effect.updateCommand cid CmdStatus.processing]
      ∧ (sendCommand envS k v d cid).2 = true)
    ∧ ((sendCommand envF k v d cid).1 =
        [Effect.createCommand cid d k (if v.q = 0 then 0 else v.q) CmdStatus.pending]
      ∧ (sendCommand envF k v d cid).2 = false
      ∧ Effect.updateCommand cid CmdStatus.failed ∉ (sendCommand envF k v d cid).1)
    ∧ (dispenseWaterHttp envS db userId (some a) =
        [Effect.createCommand 0 dev.id CommandType.dispenseWater a.q CmdStatus.pending,
         Effect.publish s2cTopic (mqttCommandString CommandType.dispenseWater a),
         Effect.updateCommand 0 CmdStatus.processing,
         Effect.respond true]
      ∧ idxOfEffect (Effect.updateCommand 0 CmdStatus.processing)
            (dispenseWaterHttp envS db userId (some a))
          < idxOfEffect (Effect.respond true) (dispenseWaterHttp envS db userId (some a)))
    ∧ (setTemperatureHttp envS db userId (some t) =
        [Effect.createCommand 0 dev.id CommandType.setTemperature t.q CmdStatus.pending,
         Effect.publish s2cTopic (mqttCommandString CommandType.setTemperature t),
         Effect.updateCommand 0 CmdStatus.processing,
         Effect.respond true]
      ∧ idxOfEffect (Effect.updateCommand 0 CmdStatus.processing)
            (setTemperatureHttp envS db userId (some t))
          < idxOfEffect (Effect.respond true) (setTemperatureHttp envS db userId (some t)))
    ∧ (dispenseFoodSocket envS db userId (some a) =
        [Effect.createCommand 0 dev.id CommandType.dispenseFood a.q CmdStatus.pending,
         Effect.createCommand 1 dev.id CommandType.dispenseFood a.q CmdStatus.pending,
         Effect.publish s2cTopic (mqttCommandString CommandType.dispenseFood a),
         Effect.updateCommand 1 CmdStatus.processing,
         Effect.updateCommand 0 CmdStatus.processing,
         Effect.createNotification userId "Food Dispense Command Sent" "info",
         Effect.emitCommandStatus 0 CmdStatus.processing]
      ∧ idxOfEffect (Effect.updateCommand 0 CmdStatus.processing)
            (dispenseFoodSocket envS db userId (some a))
          < idxOfEffect (Effect.emitCommandStatus 0 CmdStatus.processing)
            (dispenseFoodSocket envS db userId (some a)))
    ∧ (dispenseWaterSocket envS db userId (some a) =
        [Effect.createCommand 0 dev.id CommandType.dispenseWater a.q CmdStatus.pending,
         Effect.createCommand 1 dev.id CommandType.dispenseWater a.q CmdStatus.pending,
         Effect.publish s2cTopic (mqttCommandString CommandType.dispenseWater a),
         Effect.updateCommand 1 CmdStatus.processing,
         Effect.updateCommand 0 CmdStatus.processing,
         Effect.createNotification userId "Water Dispense Command Sent" "info",
         Effect.emitCommandStatus 0 CmdStatus.processing]
      ∧ idxOfEffect (Effect.updateCommand 0 CmdStatus.processing)
            (dispenseWaterSocket envS db userId (some a))
          < idxOfEffect (Effect.emitCommandStatus 0 CmdStatus.processing)
            (dispenseWaterSocket envS db userId (some a)))
    ∧ (setTemperatureSocket envS db userId (some t) =
        [Effect.createCommand 0 dev.id CommandType.setTemperature t.q CmdStatus.pending,
         Effect.createCommand 1 dev.id CommandType.setTemperature t.q CmdStatus.pending,
         Effect.publish s2cTopic (mqttCommandString CommandType.setTemperature t),
         Effect.updateCommand 1 CmdStatus.processing,
         Effect.updateCommand 0 CmdStatus.processing,
         Effect.createNotification userId "Temperature Command Sent" "info",
         Effect.emitCommandStatus 0 CmdStatus.processing]
      ∧ idxOfEffect (Effect.updateCommand 0 CmdStatus.processing)
            (setTemperatureSocket envS db userId (some t))
          < idxOfEffect (Effect.emitCommandStatus 0 CmdStatus.processing)
            (setTemperatureSocket envS db userId (some t)))
    ∧ executeSchedule envS now db sch =
        [Effect.createCommand 0 sch.deviceId
           (if sch.stype = "food" then CommandType.dispenseFood else CommandType.dispenseWater)
           sch.amount.q CmdStatus.pending,
         Effect.createCommand 1 sch.deviceId
           (if sch.stype = "food" then CommandType.dispenseFood else CommandType.dispenseWater)
           (if sch.amount.q = 0 then 0 else sch.amount.q) CmdStatus.pending,
         Effect.publish s2cTopic (mqttCommandString
           (if sch.stype = "food" then CommandType.dispenseFood else CommandType.dispenseWater)
           sch.amount),
         Effect.updateCommand 1 CmdStatus.processing,
         Effect.updateCommand 0 CmdStatus.processing]
    ∧ (dispenseFoodHttp db userId (some a) true true =
        [Effect.createCommand 0 dev.id CommandType.dispenseFood a.q CmdStatus.pending,
         Effect.publish s2cTopic "F0",
         Effect.respond true,
         Effect.updateCommand 0 CmdStatus.processing]
      ∧ idxOfEffect (Effect.respond true) (dispenseFoodHttp db userId (some a) true true)
          < idxOfEffect (Effect.updateCommand 0 CmdStatus.processing)
            (dispenseFoodHttp db userId (some a) true true)) := by
  have hvalA : ¬ (a.q ≤ 0 ∨ 100 < a.q) := by
    push_neg
    exact ⟨ha0, ha100⟩
  have hvalT : ¬ (t.q < 15 ∨ 30 < t.q) := by
    push_neg
    exact ⟨ht15, ht30⟩
  have hneA : ¬ (a.q = 0) := ne_of_gt ha0
  have hneT : ¬ (t.q = 0) := by
    intro h0
    rw [h0] at ht15
    norm_num at ht15
  obtain ⟨dd, hdd⟩ := Option.isSome_iff_exists.mp hfound
  have hsf : (sendCommand envF k v d cid).1 =
      [Effect.createCommand cid d k (if v.q = 0 then 0 else v.q) CmdStatus.pending] := by
    simp [sendCommand, hF1, hF2]
  have hw : dispenseWaterHttp envS db userId (some a) =
      [Effect.createCommand 0 dev.id CommandType.dispenseWater a.q CmdStatus.pending,
       Effect.publish s2cTopic (mqttCommandString CommandType.dispenseWater a),
       Effect.updateCommand 0 CmdStatus.processing,
       Effect.respond true] := by
    simp [dispenseWaterHttp, sendCommand, hS1, hS2, hdev, hon, hvalA, hneA]
  have hth : setTemperatureHttp envS db userId (some t) =
      [Effect.createCommand 0 dev.id CommandType.setTemperature t.q CmdStatus.pending,
       Effect.publish s2cTopic (mqttCommandString CommandType.setTemperature t),
       Effect.updateCommand 0 CmdStatus.processing,
       Effect.respond true] := by
    simp [setTemperatureHttp, sendCommand, hS1, hS2, hdev, hon, hvalT, hneT]
  have hfs : dispenseFoodSocket envS db userId (some a) =
      [Effect.createCommand 0 dev.id CommandType.dispenseFood a.q CmdStatus.pending,
       Effect.createCommand 1 dev.id CommandType.dispenseFood a.q CmdStatus.pending,
       Effect.publish s2cTopic (mqttCommandString CommandType.dispenseFood a),
       Effect.updateCommand 1 CmdStatus.processing,
       Effect.updateCommand 0 CmdStatus.processing,
       Effect.createNotification userId "Food Dispense Command Sent" "info",
       Effect.emitCommandStatus 0 CmdStatus.processing] := by
    simp [dispenseFoodSocket, socketCommandBody, sendCommand, hS1, hS2, hdev, hvalA, hneA]
  have hws : dispenseWaterSocket envS db userId (some a) =
      [Effect.createCommand 0 dev.id CommandType.dispenseWater a.q CmdStatus.pending,
       Effect.createCommand 1 dev.id CommandType.dispenseWater a.q CmdStatus.pending,
       Effect.publish s2cTopic (mqttCommandString CommandType.dispenseWater a),
       Effect.updateCommand 1 CmdStatus.processing,
       Effect.updateCommand 0 CmdStatus.processing,
       Effect.createNotification userId "Water Dispense Command Sent" "info",
       Effect.emitCommandStatus 0 CmdStatus.processing] := by
    simp [dispenseWaterSocket, socketCommandBody, sendCommand, hS1, hS2, hdev, hvalA, hneA]
  have hts : setTemperatureSocket envS db userId (some t) =
      [Effect.createCommand 0 dev.id CommandType.setTemperature t.q CmdStatus.pending,
       Effect.createCommand 1 dev.id CommandType.setTemperature t.q CmdStatus.pending,
       Effect.publish s2cTopic (mqttCommandString CommandType.setTemperature t),
       Effect.updateCommand 1 CmdStatus.processing,
       Effect.updateCommand 0 CmdStatus.processing,
       Effect.createNotification userId "Temperature Command Sent" "info",
       Effect.emitCommandStatus 0 CmdStatus.processing] := by
    simp [setTemperatureSocket, socketCommandBody, sendCommand, hS1, hS2, hdev, hvalT, hneT]
  have hsch : executeSchedule envS now db sch =
      [Effect.createCommand 0 sch.deviceId
         (if sch.stype = "food" then CommandType.dispenseFood else CommandType.dispenseWater)
         sch.amount.q CmdStatus.pending,
       Effect.createCommand 1 sch.deviceId
         (if sch.stype = "food" then CommandType.dispenseFood else CommandType.dispenseWater)
         (if sch.amount.q = 0 then 0 else sch.amount.q) CmdStatus.pending,
       Effect.publish s2cTopic (mqttCommandString
         (if sch.stype = "food" then CommandType.dispenseFood else CommandType.dispenseWater)
         sch.amount),
       Effect.updateCommand 1 CmdStatus.processing,
       Effect.updateCommand 0 CmdStatus.processing] := by
    simp [executeSchedule, hfire, hdd, sendCommand, hS1, hS2]
  have hf : dispenseFoodHttp db userId (some a) true true =
      [Effect.createCommand 0 dev.id CommandType.dispenseFood a.q CmdStatus.pending,
       Effect.publish s2cTopic "F0",
       Effect.respond true,
       Effect.updateCommand 0 CmdStatus.processing] := by
    simp [dispenseFoodHttp, hdev, hon, hvalA, hneA]
  refine ⟨⟨?_, ?_⟩, ⟨hsf, ?_, ?_⟩, ⟨hw, ?_⟩, ⟨hth, ?_⟩, ⟨hfs, ?_⟩, ⟨hws, ?_⟩, ⟨hts, ?_⟩,
    hsch, ⟨hf, ?_⟩⟩
  · simp [sendCommand, hS1, hS2]
  · simp [sendCommand, hS1, hS2]
  · simp [sendCommand, hF1, hF2]
  · rw [hsf]
    simp
  · rw [hw]
    simp [idxOfEffect]
  · rw [hth]
    simp [idxOfEffect]
  · rw [hfs]
    simp [idxOfEffect]
  · rw [hws]
    simp [idxOfEffect]
  · rw [hts]
    simp [idxOfEffect]
  · rw [hf]
    simp [idxOfEffect]

/-- Witness for `write_before_acknowledge_per_path`: one online device,
amount 5, temperature 20, and the Monday-08:00 schedule, on a
successful and on a failing publish. -/
theorem write_before_acknowledge_per_path_witness :
    (sendCommand ⟨true, true⟩ CommandType.dispenseFood ⟨5, "5"⟩ 1 0).1 =
      [Effect.createCommand 0 1 CommandType.dispenseFood 5 CmdStatus.pending,
       Effect.publish s2cTopic "F5",
       Effect.updateCommand 0 CmdStatus.processing]
    ∧ Effect.updateCommand 0 CmdStatus.failed
        ∉ (sendCommand ⟨true, false⟩ CommandType.dispenseFood ⟨5, "5"⟩ 1 0).1
    ∧ dispenseWaterHttp ⟨true, true⟩ [⟨1, 7, "online", "feeder"⟩] 7 (some ⟨5, "5"⟩) =
      [Effect.createCommand 0 1 CommandType.dispenseWater 5 CmdStatus.pending,
       Effect.publish s2cTopic "W5",
       Effect.updateCommand 0 CmdStatus.processing,
       Effect.respond true]
    ∧ setTemperatureHttp ⟨true, true⟩ [⟨1, 7, "online", "feeder"⟩] 7 (some ⟨20, "20"⟩) =
      [Effect.createCommand 0 1 CommandType.setTemperature 20 CmdStatus.pending,
       Effect.publish s2cTopic "T20",
       Effect.updateCommand 0 CmdStatus.processing,
       Effect.respond true]
    ∧ dispenseFoodSocket ⟨true, true⟩ [⟨1, 7, "online", "feeder"⟩] 7 (some ⟨5, "5"⟩) =
      [Effect.createCommand 0 1 CommandType.dispenseFood 5 CmdStatus.pending,
       Effect.createCommand 1 1 CommandType.dispenseFood 5 CmdStatus.pending,
       Effect.publish s2cTopic "F5",
       Effect.updateCommand 1 CmdStatus.processing,
       Effect.updateCommand 0 CmdStatus.processing,
       Effect.createNotification 7 "Food Dispense Command Sent" "info",
       Effect.emitCommandStatus 0 CmdStatus.processing]
    ∧ executeSchedule ⟨true, true⟩ ⟨"Monday", 8, 0⟩ [⟨1, 7, "online", "feeder"⟩]
        ⟨1, "food", "08:00", ["Monday"], ⟨30, "30"⟩, true⟩ =
      [Effect.createCommand 0 1 CommandType.dispenseFood 30 CmdStatus.pending,
       Effect.createCommand 1 1 CommandType.dispenseFood 30 CmdStatus.pending,
       Effect.publish s2cTopic "F30",
       Effect.updateCommand 1 CmdStatus.processing,
       Effect.updateCommand 0 CmdStatus.processing]
    ∧ dispenseFoodHttp [⟨1, 7, "online", "feeder"⟩] 7 (some ⟨5, "5"⟩) true true =
      [Effect.createCommand 0 1 CommandType.dispenseFood 5 CmdStatus.pending,
       Effect.publish s2cTopic "F0",
       Effect.respond true,
       Effect.updateCommand 0 CmdStatus.processing] := by
  obtain ⟨h1, h2, h3, h4, h5, h6, h7, h8, h9⟩ :=
    write_before_acknowledge_per_path ⟨true, true⟩ ⟨true, false⟩
      CommandType.dispenseFood ⟨5, "5"⟩ 1 0 [⟨1, 7, "online", "feeder"⟩] 7
      ⟨1, 7, "online", "feeder"⟩ [] ⟨5, "5"⟩ ⟨20, "20"⟩ ⟨"Monday", 8, 0⟩
      ⟨1, "food", "08:00", ["Monday"], ⟨30, "30"⟩, true⟩
      rfl rfl rfl rfl (by decide) rfl (by decide) (by decide) (by decide) (by decide)
      (by decide) (by decide)
  refine ⟨?_, h2.2.2, ?_, ?_, ?_, ?_, ?_⟩
  · rw [h1.1]
    decide
  · rw [h3.1]
    decide
  · rw [h4.1]
    decide
  · rw [h5.1]
    decide
  · rw [h8]
    decide
  · rw [h9.1]

/-- Fact: `getD` only looks at the first `n` entries when the index is below
`n`. -/
theorem take_getD {α : Type} : ∀ (n i : Nat) (l : List α) (d : α), i < n →
    (l.take n).getD i d = l.getD i d
  | _ + 1, _, [], _, _ => by simp
  | _ + 1, 0, _ :: _, _, _ => rfl
  | n + 1, i + 1, _ :: l, d, h => by
    simpa using take_getD n i l d (Nat.lt_of_succ_lt_succ h)

/-- C9: a non-test telemetry message with fewer than four
comma-separated fields, or with a field that does not parse as a
number, is discarded with no effect at all; and a valid message's
effects depend only on its first four parsed values, so any extra
fields are silently ignored. -/
theorem telemetry_parse_gate
    (data d1 d2 : String) (db : List Device)
    (hts : jsStartsWith data "TEST-" = false)
    (hbad : (parsedValues data).length < 4
      ∨ (parsedValues data).any (fun v => v.isNone) = true)
    (ht1 : jsStartsWith d1 "TEST-" = false) (ht2 : jsStartsWith d2 "TEST-" = false)
    (hlen1 : ¬ (parsedValues d1).length < 4) (hlen2 : ¬ (parsedValues d2).length < 4)
    (hsome1 : (parsedValues d1).any (fun v => v.isNone) = false)
    (hsome2 : (parsedValues d2).any (fun v => v.isNone) = false)
    (heq : (parsedValues d1).take 4 = (parsedValues d2).take 4) :
    handleSensorData data db = []
    ∧ handleSensorData d1 db = handleSensorData d2 db := by
  constructor
  · simp only [handleSensorData, hts, Bool.false_eq_true, if_false]
    rw [if_pos hbad]
  · have e : ∀ i, i < 4 →
        (parsedValues d1).getD i none = (parsedValues d2).getD i none := by
      intro i hi
      rw [← take_getD 4 i (parsedValues d1) none hi, heq,
        take_getD 4 i (parsedValues d2) none hi]
    have hc1 : ¬ ((parsedValues d1).length < 4
        ∨ (parsedValues d1).any (fun v => v.isNone) = true) := by
      rw [hsome1]
      simp [hlen1]
    have hc2 : ¬ ((parsedValues d2).length < 4
        ∨ (parsedValues d2).any (fun v => v.isNone) = true) := by
      rw [hsome2]
      simp [hlen2]
    simp only [handleSensorData, ht1, ht2, Bool.false_eq_true, if_false, hc1, hc2,
      e 0 (by norm_num), e 1 (by norm_num), e 2 (by norm_num), e 3 (by norm_num)]

/-- Witness for `telemetry_parse_gate`: a three-field message is
dropped, and a fifth field changes nothing. -/
theorem telemetry_parse_gate_witness :
    handleSensorData "1,2,3" [⟨1, 1, "online", "d"⟩] = []
    ∧ handleSensorData "30,40,22,50" [⟨1, 1, "online", "d"⟩]
        = handleSensorData "30,40,22,50,99" [⟨1, 1, "online", "d"⟩] :=
  telemetry_parse_gate "1,2,3" "30,40,22,50" "30,40,22,50,99" [⟨1, 1, "online", "d"⟩]
    (by decide) (by decide) (by decide) (by decide) (by decide) (by decide)
    (by decide) (by decide) (by decide)

/-- Fact: `readingsOf` distributes over trace concatenation. -/
theorem readingsOf_append (l1 l2 : List Effect) :
    readingsOf (l1 ++ l2) = readingsOf l1 ++ readingsOf l2 := by
  simp [readingsOf, List.filterMap_append]

/-- Threshold notifications persist no sensor reading. -/
theorem readingsOf_thresholdNotification (db : List Device) (i : Nat) (t l : String) :
    readingsOf (thresholdNotification db i t l) = [] := by
  unfold thresholdNotification
  split <;> simp [readingsOf]

/-- One device's loop body persists exactly the four readings, in
order, regardless of which threshold notifications fire. -/
theorem readingsOf_perDevice (db : List Device) (v0 v1 v2 v3 : ℚ) (d : Device) :
    readingsOf (perDeviceSensorEffects db v0 v1 v2 v3 d) =
      [(d.id, "food", v0), (d.id, "water", v1),
       (d.id, "temperature", v2), (d.id, "humidity", v3)] := by
  unfold perDeviceSensorEffects
  rw [readingsOf_append, readingsOf_append, readingsOf_append, readingsOf_append]
  have hn1 : readingsOf (if v0 ≤ 10 then thresholdNotification db d.id "food" "critical"
      else if v0 ≤ 20 then thresholdNotification db d.id "food" "warning" else []) = [] := by
    split
    · exact readingsOf_thresholdNotification db d.id "food" "critical"
    · split
      · exact readingsOf_thresholdNotification db d.id "food" "warning"
      · rfl
  have hn2 : readingsOf (if v1 ≤ 15 then thresholdNotification db d.id "water" "critical"
      else if v1 ≤ 25 then thresholdNotification db d.id "water" "warning" else []) = [] := by
    split
    · exact readingsOf_thresholdNotification db d.id "water" "critical"
    · split
      · exact readingsOf_thresholdNotification db d.id "water" "warning"
      · rfl
  rw [hn1, hn2]
  rfl

/-- Fact: `readingsOf` maps through the per-device fan-out. -/
theorem readingsOf_flatMap (f : Device → List Effect) :
    ∀ ds : List Device, readingsOf (ds.flatMap f) = ds.flatMap (fun d => readingsOf (f d))
  | [] => rfl
  | d :: ds => by
    have h1 : (d :: ds).flatMap f = f d ++ ds.flatMap f := rfl
    rw [h1, readingsOf_append, readingsOf_flatMap f ds]
    rfl

/-- C10: a valid telemetry message is fanned out to every device whose
status is `online`: each online device gets exactly the four readings
food, water, temperature, humidity carrying the same four parsed
values (so two online devices receive identical readings), and if no
device is online the message produces no effects at all. -/
theorem telemetry_fanout
    (data : String) (db : List Device) (v0 v1 v2 v3 : ℚ)
    (hts : jsStartsWith data "TEST-" = false)
    (hlen : ¬ (parsedValues data).length < 4)
    (hsome : (parsedValues data).any (fun v => v.isNone) = false)
    (hv : (parsedValues data).take 4 = [some v0, some v1, some v2, some v3]) :
    readingsOf (handleSensorData data db) =
      (db.filter (fun d => d.status = "online")).flatMap
        (fun d => [(d.id, "food", v0), (d.id, "water", v1),
                   (d.id, "temperature", v2), (d.id, "humidity", v3)])
    ∧ (db.filter (fun d => d.status = "online") = [] →
        handleSensorData data db = []) := by
  have hcond : ¬ ((parsedValues data).length < 4
      ∨ (parsedValues data).any (fun v => v.isNone) = true) := by
    rw [hsome]
    simp [hlen]
  have e0 : (parsedValues data).getD 0 none = some v0 := by
    rw [← take_getD 4 0 (parsedValues data) none (by norm_num), hv]
    rfl
  have e1 : (parsedValues data).getD 1 none = some v1 := by
    rw [← take_getD 4 1 (parsedValues data) none (by norm_num), hv]
    rfl
  have e2 : (parsedValues data).getD 2 none = some v2 := by
    rw [← take_getD 4 2 (parsedValues data) none (by norm_num), hv]
    rfl
  have e3 : (parsedValues data).getD 3 none = some v3 := by
    rw [← take_getD 4 3 (parsedValues data) none (by norm_num), hv]
    rfl
  constructor
  · by_cases hdev : db.filter (fun d => d.status = "online") = []
    · simp [handleSensorData, hts, hcond, hdev, readingsOf]
    · simp only [handleSensorData, hts, Bool.false_eq_true, if_false, hcond,
        e0, e1, e2, e3, Option.getD_some, hdev]
      rw [readingsOf_flatMap]
      simp only [readingsOf_perDevice]
  · intro hdev
    simp [handleSensorData, hts, hcond, hdev]

/-- Witness for `telemetry_fanout`: the message `"30,40,22,50"` with
two online devices and one offline device yields identical reading
quadruples for the two online devices, and no effects with only the
offline device present. -/
theorem telemetry_fanout_witness :
    readingsOf (handleSensorData "30,40,22,50"
        [⟨1, 7, "online", "a"⟩, ⟨2, 7, "offline", "b"⟩, ⟨3, 8, "online", "c"⟩]) =
      [(1, "food", 30), (1, "water", 40), (1, "temperature", 22), (1, "humidity", 50),
       (3, "food", 30), (3, "water", 40), (3, "temperature", 22), (3, "humidity", 50)]
    ∧ handleSensorData "30,40,22,50" [⟨2, 7, "offline", "b"⟩] = [] := by
  constructor
  · have h := (telemetry_fanout "30,40,22,50"
      [⟨1, 7, "online", "a"⟩, ⟨2, 7, "offline", "b"⟩, ⟨3, 8, "online", "c"⟩]
      30 40 22 50 (by decide) (by decide) (by decide) (by decide)).1
    rw [h]
    decide
  · exact (telemetry_fanout "30,40,22,50" [⟨2, 7, "offline", "b"⟩]
      30 40 22 50 (by decide) (by decide) (by decide) (by decide)).2 (by decide)

end APCS
